import Mathlib

/-!
Shallow embedding of the session/protocol layer of the conferencing server
(src/server/src/services/room.ts, src/server/src/services/context.ts and the
Bot service), together with theorems settling the frozen claims about it.

Conventions of the embedding:
* JS `Map` objects keyed by resource id are modelled as Lean lists of records
  carrying their own `id`; `map.set` is modelled as cons-after-filter and
  `map.delete` as filter.
* `undefined`/optional JS values are `Option`.
* External media-engine calls (`transport.consume`, `transport.produce`,
  `peer.request`, `consumer.resume`, throttle start/stop, ...) are fallible
  suspension points; their outcomes are supplied by explicit environment
  records, so one Lean function run with one environment corresponds to one
  asynchronous execution of the TypeScript code.
* `nanoid(20)` room-id generation is modelled by a fresh-id counter held in
  the Context state.
-/

/-- Opaque token standing for a mediasoup RtpCapabilities object. -/
abbrev RtpCapabilities := String

/-- Opaque token standing for a mediasoup SctpCapabilities object. -/
abbrev SctpCapabilities := String

/-- Media kind of a Producer (room.ts `produce` request). -/
inductive MediaKind where
  | audio
  | video
deriving DecidableEq, Repr

/-- A mediasoup Transport as the Room sees it: its id and the
`appData: \x7b producing, consuming \x7d` tag set at creation
(room.ts `createWebRtcTransport`). -/
structure TransportT where
  id : String
  producing : Bool
  consuming : Bool
deriving DecidableEq, Repr

/-- A mediasoup Producer entry of a peer's `producers` map.  `appPeerId` is the
`peerId` the `produce` handler merges into the producer appData (room.ts:852). -/
structure ProducerT where
  id : String
  kind : MediaKind
  appPeerId : Option String := none
deriving DecidableEq, Repr

/-- A mediasoup DataProducer entry of a peer's `dataProducers` map. -/
structure DataProducerT where
  id : String
  label : String
deriving DecidableEq, Repr

/-- A mediasoup Consumer entry of a peer's `consumers` map. -/
structure ConsumerT where
  id : String
  producerId : String
  paused : Bool
deriving DecidableEq, Repr

/-- A mediasoup DataConsumer entry of a peer's `dataConsumers` map. -/
structure DataConsumerT where
  id : String
  dataProducerId : String
deriving DecidableEq, Repr

/-- The `peer.data` bag initialised in room.ts `handleProtooConnection`
(lines 174-187) and mutated by the request handlers. -/
structure PeerData where
  consume : Bool := false
  joined : Bool := false
  displayName : Option String := none
  device : Option String := none
  rtpCapabilities : Option RtpCapabilities := none
  sctpCapabilities : Option SctpCapabilities := none
  transports : List TransportT := []
  producers : List ProducerT := []
  consumers : List ConsumerT := []
  dataProducers : List DataProducerT := []
  dataConsumers : List DataConsumerT := []
deriving DecidableEq, Repr

/-- A protoo Peer as the Room sees it: the caller-supplied id plus the custom
`data` bag.  Broadcasters are stored in the same shape (room.ts:266 casts a
Broadcaster to `protoo.Peer`). -/
structure Peer where
  id : String
  data : PeerData
deriving DecidableEq, Repr

/-- Room state: the fields of the `Room` class that the settled claims touch.
`roomId` models the `nanoid(20)` id as a number drawn from a fresh counter. -/
structure RoomState where
  roomId : Nat
  closed : Bool
  peers : List Peer
  broadcasters : List Peer
  consumerReplicas : Nat
  networkThrottled : Bool
deriving DecidableEq, Repr

/-- Observable effect of one negotiation-protocol execution, in program order. -/
inductive Event where
  | consumerCreated (transportId : String) (consumerId : String) (paused : Bool)
  | newConsumerRequest (destPeerId : String) (producerPeerId : String)
      (producerId : String) (consumerId : String)
  | ackReceived (consumerId : String)
  | consumerResumed (consumerId : String)
  | scoreNotify (consumerId : String)
  | dataConsumerCreated (transportId : String) (dataConsumerId : String)
  | newDataConsumerRequest (destPeerId : String) (producerPeerId : Option String)
      (dataProducerId : String) (dataConsumerId : String)
  | logWarn (message : String)
  | logError (message : String)
deriving DecidableEq, Repr

/-- Outcome of the external calls one consumer-creation attempt performs:
`consumeResult` is the id of the Consumer `transport.consume` returns (`none`
when that call throws), `ackOk` whether the destination acknowledged the
`newConsumer` protoo request, `resumeOk` whether `consumer.resume()` succeeded. -/
structure AttemptEnv where
  consumeResult : Option String
  ackOk : Bool
  resumeOk : Bool
deriving DecidableEq, Repr

/-- Result of one consumer-creation attempt: its event trace and the ids this
attempt inserted into the destination peer's `consumers` map (and that remain
there when the attempt's code finishes — only the separately registered
`transportclose`/`producerclose` handlers ever remove them). -/
structure AttemptResult where
  trace : List Event
  added : List String
deriving DecidableEq, Repr

/-- One iteration of the `_createConsumer` replica loop (room.ts:1381-1488):
create the Consumer paused on the consuming transport, insert it into the
destination's map, register its relay handlers, send the `newConsumer` request,
and resume only once that request is acknowledged.  The inner try/catch
(room.ts:1454-1480) turns a handshake failure into a logged error; the outer
one (room.ts:1481-1486) turns a `transport.consume` failure into a logged
warning.  The six per-consumer relay-handler registrations are not traced:
none of them fires during the attempt itself. -/
def runConsumerAttempt (transportId destPeerId producerPeerId producerId : String)
    (e : AttemptEnv) : AttemptResult :=
  match e.consumeResult with
  | none =>
      { trace := [.logWarn "_createConsumer() | transport.consume()"], added := [] }
  | some cid =>
      let created := Event.consumerCreated transportId cid true
      let req := Event.newConsumerRequest destPeerId producerPeerId producerId cid
      if e.ackOk then
        if e.resumeOk then
          { trace := [created, req, .ackReceived cid, .consumerResumed cid, .scoreNotify cid],
            added := [cid] }
        else
          { trace := [created, req, .ackReceived cid, .logError "_createConsumer() | failed"],
            added := [cid] }
      else
        { trace := [created, req, .logError "_createConsumer() | failed"],
          added := [cid] }

/-- Selection of the destination's Transport tagged for consuming
(room.ts:1364-1366). -/
def findConsumingTransport (ts : List TransportT) : Option TransportT :=
  ts.find? (fun t => t.consuming)

/-- How `_createConsumer` terminated. -/
inductive CreateOutcome where
  | skippedCapabilities
  | noConsumingTransport
  | ran
deriving DecidableEq, Repr

/-- Result of a `_createConsumer` call. -/
structure CreateConsumerResult where
  outcome : CreateOutcome
  attempts : List AttemptResult
deriving DecidableEq, Repr

/-- The `_createConsumer` negotiation protocol (room.ts:1335-1496).
`canConsume` is the Media Engine Facade predicate
`router.canConsume(producerId, rtpCapabilities)`; `consumerReplicas` the
Session field; `env i` the external-call outcomes of replica attempt `i`.
Gate order follows the source: missing `rtpCapabilities` or a false
`canConsume` is a silent return (room.ts:1352-1361); a missing consuming
transport is a logged return (room.ts:1368-1375); otherwise
`1 + consumerReplicas` independent attempts run (room.ts:1379-1489). -/
def createConsumer (canConsume : String → RtpCapabilities → Bool)
    (consumerReplicas : Nat) (consumerPeer producerPeer : Peer)
    (producer : ProducerT) (env : Nat → AttemptEnv) : CreateConsumerResult :=
  match consumerPeer.data.rtpCapabilities with
  | none => { outcome := .skippedCapabilities, attempts := [] }
  | some rtpCaps =>
      if !canConsume producer.id rtpCaps then
        { outcome := .skippedCapabilities, attempts := [] }
      else
        match findConsumingTransport consumerPeer.data.transports with
        | none => { outcome := .noConsumingTransport, attempts := [] }
        | some transport =>
            let consumerCount := 1 + consumerReplicas
            { outcome := .ran,
              attempts := (List.range consumerCount).map fun i =>
                runConsumerAttempt transport.id consumerPeer.id producerPeer.id
                  producer.id (env i) }

/-- Consumer ids a `_createConsumer` call leaves inserted in the destination
peer's `consumers` map once all attempts have settled. -/
def addedConsumers (r : CreateConsumerResult) : List String :=
  (r.attempts.map (fun a => a.added)).flatten

/-- Outcome of the external calls `_createDataConsumer` performs. -/
structure DataEnv where
  consumeDataResult : Option String
  ackOk : Bool
deriving DecidableEq, Repr

/-- How `_createDataConsumer` terminated. -/
inductive DataOutcome where
  | skippedNoSctp
  | noConsumingTransport
  | ran
deriving DecidableEq, Repr

/-- Result of a `_createDataConsumer` call. -/
structure CreateDataConsumerResult where
  outcome : DataOutcome
  trace : List Event
  added : List String
deriving DecidableEq, Repr

/-- The `_createDataConsumer` protocol (room.ts:1503-1567): silent return when
the destination declared no SCTP capabilities (room.ts:1509), logged return
when it has no consuming transport, otherwise a single DataConsumer is created
(no pause concept) and announced with a `newDataConsumer` request whose failure
is logged.  `producerPeerId` is `none` for the bot's DataProducer. -/
def createDataConsumer (dest : Peer) (producerPeerId : Option String)
    (dataProducer : DataProducerT) (env : DataEnv) : CreateDataConsumerResult :=
  if dest.data.sctpCapabilities.isNone then
    { outcome := .skippedNoSctp, trace := [], added := [] }
  else
    match findConsumingTransport dest.data.transports with
    | none =>
        { outcome := .noConsumingTransport,
          trace := [.logWarn "_createDataConsumer() | Transport for consuming not found"],
          added := [] }
    | some transport =>
        match env.consumeDataResult with
        | none =>
            { outcome := .ran,
              trace := [.logError "transport.consumeData()"], added := [] }
        | some dcid =>
            if env.ackOk then
              { outcome := .ran,
                trace := [.dataConsumerCreated transport.id dcid,
                  .newDataConsumerRequest dest.id producerPeerId dataProducer.id dcid],
                added := [dcid] }
            else
              { outcome := .ran,
                trace := [.dataConsumerCreated transport.id dcid,
                  .newDataConsumerRequest dest.id producerPeerId dataProducer.id dcid,
                  .logError "failed to create data consumer"],
                added := [dcid] }

/-- Ordering property on traces: every occurrence of `y` is strictly preceded
by an occurrence of `x`. -/
def precedesIn (x y : Event) (tr : List Event) : Prop :=
  ∀ j : Nat, tr.get? j = some y → ∃ i : Nat, i < j ∧ tr.get? i = some x

/-- Inbound protoo requests (the dispatch-table methods the claims touch;
every other method falls to the `other` default branch).  The throttle
`secret` is `none` when the request payload omits it. -/
inductive ProtooRequest where
  | join (displayName : String) (device : Option String)
      (rtpCapabilities : Option RtpCapabilities)
      (sctpCapabilities : Option SctpCapabilities)
  | produce (transportId : String) (kind : MediaKind)
  | closeProducer (producerId : String)
  | pauseConsumer (consumerId : String)
  | produceData (transportId : String) (label : String)
  | changeDisplayName (displayName : String)
  | applyNetworkThrottle (secret : Option String)
      (uplink downlink rtt packetLoss : Option Nat)
  | resetNetworkThrottle (secret : Option String)
  | other (method : String)
deriving DecidableEq, Repr

/-- Public info of a joined peer as put in the `join` accept payload
(room.ts:679-683). -/
structure PeerInfoT where
  id : String
  displayName : Option String
  device : Option String
deriving DecidableEq, Repr

/-- Accept payloads of the modelled methods. -/
inductive Payload where
  | nullPayload
  | peers (infos : List PeerInfoT)
  | resourceId (id : String)
deriving DecidableEq, Repr

/-- How `_handleProtooRequest` answered: an explicit `accept`, an explicit
`reject(status, message)`, or a thrown error (the `peer.on("request")` wrapper
at room.ts:194-200 converts the latter into a rejection carrying the error). -/
inductive HandlerResult where
  | accepted (payload : Payload)
  | rejected (status : Nat) (reason : String)
  | thrown (message : String)
deriving DecidableEq, Repr

/-- Asynchronous work a handler fires and forgets (the un-awaited
`_createConsumer`/`_createDataConsumer` calls and the bot attachment). -/
inductive SchedTask where
  | consumerTask (destPeerId producerPeerId producerId : String)
  | dataConsumerTask (destPeerId : String) (producerPeerId : Option String)
      (dataProducerId : String)
  | botAttach (dataProducerId peerId : String)
  | observersAdd (producerId : String)
deriving DecidableEq, Repr

/-- A best-effort server-to-peer notification (every `notify(...).catch`). -/
structure Notice where
  toPeer : String
  method : String
deriving DecidableEq, Repr

/-- Full outcome of one `_handleProtooRequest` call. -/
structure RequestOutcome where
  res : HandlerResult
  room : RoomState
  sched : List SchedTask
  notices : List Notice
deriving DecidableEq, Repr

/-- Outcomes of the external calls a request handler may perform, plus the
server-held `process.env.NETWORK_THROTTLE_SECRET` (`none` when unset). -/
structure FacadeEnv where
  envSecret : Option String := none
  produceResult : Option ProducerT := none
  produceDataResult : Option DataProducerT := none
  throttleStartOk : Bool := true
  throttleStopOk : Bool := true
deriving DecidableEq, Repr

/-- HTTP status `StatusCodes.FORBIDDEN`. -/
def forbiddenStatus : Nat := 403

/-- HTTP status `StatusCodes.INTERNAL_SERVER_ERROR`. -/
def internalErrorStatus : Nat := 500

/-- JS truthiness of an optional string: `undefined` and the empty string are
falsy. -/
def jsFalsy : Option String → Bool
  | none => true
  | some s => s = ""

/-- JS strict equality of the caller-supplied secret against
`process.env.NETWORK_THROTTLE_SECRET` (`undefined === undefined` is true,
a string never equals `undefined`). -/
def jsStrictEq : Option String → Option String → Bool
  | some a, some b => a = b
  | none, none => true
  | _, _ => false

/-- The throttle-gate condition `!secret || secret !== process.env.NETWORK_THROTTLE_SECRET`
(room.ts:1245 and room.ts:1286); `true` means the request is forbidden. -/
def throttleForbidden (callerSecret envSecret : Option String) : Bool :=
  jsFalsy callerSecret || !jsStrictEq callerSecret envSecret

/-- Replacement of peer `pid`'s data bag inside the protoo room's peer list. -/
def updatePeer (peers : List Peer) (pid : String) (f : PeerData → PeerData) :
    List Peer :=
  peers.map fun p => if p.id = pid then { p with data := f p.data } else p

/-- The `_getJoinedPeers` helper (room.ts:1324-1328); exclusion is by id since
protoo peer ids are unique in the room (a duplicate id force-closes the stale
peer first, room.ts:158-166). -/
def getJoinedPeers (room : RoomState) (excludeId : Option String) : List Peer :=
  room.peers.filter fun p => p.data.joined && !(excludeId == some p.id)

/-- Id of the bot's own DataProducer (engine-generated at bot creation;
a fixed token here). -/
def botDataProducerId : String := "bot-dataProducer"

/-- The `_handleProtooRequest` dispatch (room.ts:641-1319) for the methods the
claims touch.  Thrown errors leave the function through the `thrown` result;
the wrapper converts them to rejections.  Facade calls that the modelled
claims never reach under their hypotheses (`transport.connect`, stats queries,
`consumer.pause` failures, ...) are taken as succeeding. -/
def handleProtooRequest (env : FacadeEnv) (room : RoomState) (peer : Peer) :
    ProtooRequest → RequestOutcome
  | .join displayName device rtpCapabilities sctpCapabilities =>
      if peer.data.joined then
        { res := .thrown "Peer already joined", room := room, sched := [], notices := [] }
      else
        let room1 : RoomState :=
          { room with peers := updatePeer room.peers peer.id fun d =>
              { d with joined := true, displayName := some displayName,
                       device := device, rtpCapabilities := rtpCapabilities,
                       sctpCapabilities := sctpCapabilities } }
        let joinedPeers := getJoinedPeers room1 none ++ room1.broadcasters
        let peerInfos := (joinedPeers.filter fun jp => jp.id != peer.id).map fun jp =>
          PeerInfoT.mk jp.id jp.data.displayName jp.data.device
        let sched :=
          ((joinedPeers.map fun jp =>
              (jp.data.producers.map fun pr =>
                SchedTask.consumerTask peer.id jp.id pr.id)
              ++ ((jp.data.dataProducers.filter fun dp => dp.label != "bot").map
                    fun dp => SchedTask.dataConsumerTask peer.id (some jp.id) dp.id)).flatten)
          ++ [SchedTask.dataConsumerTask peer.id none botDataProducerId]
        let notices := (getJoinedPeers room1 (some peer.id)).map fun op =>
          Notice.mk op.id "newPeer"
        { res := .accepted (.peers peerInfos), room := room1,
          sched := sched, notices := notices }
  | .produce transportId kind =>
      if !peer.data.joined then
        { res := .thrown "Peer not yet joined", room := room, sched := [], notices := [] }
      else
        match peer.data.transports.find? (fun t => t.id == transportId) with
        | none =>
            { res := .thrown ("transport with id \"" ++ transportId ++ "\" not found"),
              room := room, sched := [], notices := [] }
        | some _ =>
            match env.produceResult with
            | none =>
                { res := .thrown "transport.produce() failed",
                  room := room, sched := [], notices := [] }
            | some producer0 =>
                let producer : ProducerT :=
                  { producer0 with kind := kind, appPeerId := some peer.id }
                let room1 : RoomState :=
                  { room with peers := updatePeer room.peers peer.id fun d =>
                      { d with producers :=
                          producer :: d.producers.filter fun p => p.id != producer.id } }
                let sched :=
                  ((getJoinedPeers room1 (some peer.id)).map fun op =>
                    SchedTask.consumerTask op.id peer.id producer.id)
                  ++ (if kind = .audio then [SchedTask.observersAdd producer.id] else [])
                { res := .accepted (.resourceId producer.id), room := room1,
                  sched := sched, notices := [] }
  | .closeProducer producerId =>
      if !peer.data.joined then
        { res := .thrown "Peer not yet joined", room := room, sched := [], notices := [] }
      else
        match peer.data.producers.find? (fun p => p.id == producerId) with
        | none =>
            { res := .thrown ("producer with id \"" ++ producerId ++ "\" not found"),
              room := room, sched := [], notices := [] }
        | some producer =>
            let room1 : RoomState :=
              { room with peers := updatePeer room.peers peer.id fun d =>
                  { d with producers := d.producers.filter fun p => p.id != producer.id } }
            { res := .accepted .nullPayload, room := room1, sched := [], notices := [] }
  | .pauseConsumer consumerId =>
      if !peer.data.joined then
        { res := .thrown "Peer not yet joined", room := room, sched := [], notices := [] }
      else
        match peer.data.consumers.find? (fun c => c.id == consumerId) with
        | none =>
            { res := .thrown ("consumer with id \"" ++ consumerId ++ "\" not found"),
              room := room, sched := [], notices := [] }
        | some consumer =>
            let room1 : RoomState :=
              { room with peers := updatePeer room.peers peer.id fun d =>
                  { d with consumers := d.consumers.map fun c =>
                      if c.id = consumer.id then { c with paused := true } else c } }
            { res := .accepted .nullPayload, room := room1, sched := [], notices := [] }
  | .produceData transportId label =>
      if !peer.data.joined then
        { res := .thrown "Peer not yet joined", room := room, sched := [], notices := [] }
      else
        match peer.data.transports.find? (fun t => t.id == transportId) with
        | none =>
            { res := .thrown ("transport with id \"" ++ transportId ++ "\" not found"),
              room := room, sched := [], notices := [] }
        | some _ =>
            match env.produceDataResult with
            | none =>
                { res := .thrown "transport.produceData() failed",
                  room := room, sched := [], notices := [] }
            | some dp0 =>
                let dataProducer : DataProducerT := { dp0 with label := label }
                let room1 : RoomState :=
                  { room with peers := updatePeer room.peers peer.id fun d =>
                      { d with dataProducers :=
                          dataProducer ::
                            d.dataProducers.filter fun p => p.id != dataProducer.id } }
                let sched :=
                  if dataProducer.label = "chat" then
                    (getJoinedPeers room1 (some peer.id)).map fun op =>
                      SchedTask.dataConsumerTask op.id (some peer.id) dataProducer.id
                  else if dataProducer.label = "bot" then
                    [SchedTask.botAttach dataProducer.id peer.id]
                  else []
                { res := .accepted (.resourceId dataProducer.id), room := room1,
                  sched := sched, notices := [] }
  | .changeDisplayName displayName =>
      if !peer.data.joined then
        { res := .thrown "Peer not yet joined", room := room, sched := [], notices := [] }
      else
        let room1 : RoomState :=
          { room with peers := updatePeer room.peers peer.id fun d =>
              { d with displayName := some displayName } }
        let notices := (getJoinedPeers room1 (some peer.id)).map fun op =>
          Notice.mk op.id "peerDisplayNameChanged"
        { res := .accepted .nullPayload, room := room1, sched := [], notices := notices }
  | .applyNetworkThrottle secret _uplink _downlink _rtt _packetLoss =>
      if throttleForbidden secret env.envSecret then
        { res := .rejected forbiddenStatus "operation NOT allowed, modda fuckaa",
          room := room, sched := [], notices := [] }
      else
        let room1 : RoomState := { room with networkThrottled := true }
        if env.throttleStartOk then
          { res := .accepted .nullPayload, room := room1, sched := [], notices := [] }
        else
          { res := .rejected internalErrorStatus "network throttle apply failed",
            room := room1, sched := [], notices := [] }
  | .resetNetworkThrottle secret =>
      if throttleForbidden secret env.envSecret then
        { res := .rejected forbiddenStatus "operation NOT allowed, modda fuckaa",
          room := room, sched := [], notices := [] }
      else
        if env.throttleStopOk then
          { res := .accepted .nullPayload, room := room, sched := [], notices := [] }
        else
          { res := .rejected internalErrorStatus "network throttle stop failed",
            room := room, sched := [], notices := [] }
  | .other method =>
      { res := .rejected internalErrorStatus
          ("unknown request.method \"" ++ method ++ "\""),
        room := room, sched := [], notices := [] }

/-- Answer as seen by the requesting peer.  A `rejected none` answer is the
wrapper rejecting with a thrown error object (room.ts:198). -/
inductive ProtooAnswer where
  | accepted (payload : Payload)
  | rejected (status : Option Nat) (reason : String)
deriving DecidableEq, Repr

/-- Conversion performed by the `peer.on("request")` wrapper (room.ts:189-201):
thrown errors become rejections carrying the error message. -/
def protooAnswer : HandlerResult → ProtooAnswer
  | .accepted p => .accepted p
  | .rejected s m => .rejected (some s) m
  | .thrown m => .rejected none m

/-- Request methods whose handler begins with the
`if (!peer.data.joined) throw new Error("Peer not yet joined")` guard. -/
def requiresJoin : ProtooRequest → Bool
  | .produce .. => true
  | .closeProducer .. => true
  | .pauseConsumer .. => true
  | .produceData .. => true
  | .changeDisplayName .. => true
  | _ => false

/-- Session Registry state (context.ts): the held Room reference and the
fresh-id counter modelling `nanoid(20)` room-id generation. -/
structure ContextState where
  room : Option RoomState
  nextRoomId : Nat
deriving DecidableEq, Repr

/-- The `Context.getRoom` acquisition (context.ts:24-31 with `#createRoom`,
context.ts:33-54): return the held Room if any, else create one whose close
event clears the held reference (modelled by `Context.onRoomClose`). -/
def Context.getRoom (ctx : ContextState) (consumerReplicas : Nat) :
    ContextState × RoomState :=
  match ctx.room with
  | some r => (ctx, r)
  | none =>
      let r : RoomState :=
        { roomId := ctx.nextRoomId, closed := false, peers := [],
          broadcasters := [], consumerReplicas := consumerReplicas,
          networkThrottled := false }
      ({ room := some r, nextRoomId := ctx.nextRoomId + 1 }, r)

/-- The close callback registered at context.ts:49-51: the Room's `close`
event clears the held reference. -/
def Context.onRoomClose (ctx : ContextState) : ContextState :=
  { ctx with room := none }

/-- `Room.close()` (room.ts:115-142) as far as the Room state is concerned. -/
def RoomState.close (r : RoomState) : RoomState :=
  { r with closed := true }

/-- The protoo peer `close` handler (room.ts:203-228) combined with the
registered context callback: a closed room ignores the event; otherwise protoo
has removed the peer, its transports cascade-close, and if it was the last
peer the room closes, emitting `close`, which clears the context reference. -/
def Room.handlePeerClose (ctx : ContextState) (r : RoomState) (pid : String) :
    ContextState × RoomState :=
  if r.closed then (ctx, r)
  else
    let r1 : RoomState := { r with peers := r.peers.filter fun p => p.id != pid }
    if r1.peers.length = 0 then (Context.onRoomClose ctx, r1.close)
    else (ctx, r1)

/-- The JS property lookup `peer.appData` performed by the bot message handler.
The object passed to `Bot.handlePeerDataProducer` (room.ts:1129-1132) is the
protoo Peer, cast through `unknown` to `MS.DataConsumer`; a protoo Peer
carries `id` and `data`, and no code in the repository ever assigns it an
`appData` property, so the lookup yields `undefined`. -/
def peerAppDataDisplayName (_ : Peer) : Option (Option String) :=
  none

/-- The bot's DataConsumer `message` handler (bot service, lines 44-60):
non-string payloads (ppid ≠ 51) are ignored with a warning; for a string it
builds `peer.appData.displayName + " said me: ..."` and sends it on the bot's
DataProducer.  Reading `.displayName` off an `undefined` `appData` is a thrown
TypeError, modelled as the `Except` error case.  `ok none` is the ignore path,
`ok (some m)` means message `m` was sent. -/
def botOnMessage (peer : Peer) (ppid : Nat) (text : String) :
    Except String (Option String) :=
  if ppid ≠ 51 then .ok none
  else
    match peerAppDataDisplayName peer with
    | none => .error "TypeError: cannot read displayName of undefined"
    | some dn =>
        .ok (some ((dn.getD "undefined") ++ " said me: \"" ++ text ++ "\""))

/-- Modelled from the spec: the reply §4.5 specifies the Echo Bot sends —
the sending peer's display name, then ` said me: `, then the quoted text.
Compared against `botOnMessage`, which embeds the source. -/
def specBotReply (peer : Peer) (text : String) : String :=
  (peer.data.displayName.getD "") ++ " said me: \"" ++ text ++ "\""

/-! Concrete instances used by witnesses and counterexamples. -/

/-- Destination peer with declared capabilities and a consuming transport. -/
def destW1 : Peer :=
  ⟨"destA", { joined := true, rtpCapabilities := some "capsA",
              transports := [⟨"sendT", true, false⟩, ⟨"recvT", false, true⟩] }⟩

/-- Source peer of the witness producer. -/
def srcW1 : Peer := ⟨"srcA", { joined := true }⟩

/-- Witness producer. -/
def prodW1 : ProducerT := ⟨"prodA", .audio, some "srcA"⟩

/-- Attempt environment where every external call succeeds. -/
def envOkW1 : Nat → AttemptEnv := fun _ => ⟨some "consA", true, true⟩

/-- Peer that declared neither media nor SCTP receive capabilities. -/
def destW2 : Peer :=
  ⟨"destB", { joined := true, transports := [⟨"recvT", false, true⟩] }⟩

/-- Source peer for the capability-gate witness. -/
def srcW2 : Peer := ⟨"srcB", { joined := true }⟩

/-- Producer for the capability-gate witness. -/
def prodW2 : ProducerT := ⟨"prodB", .video, some "srcB"⟩

/-- DataProducer for the capability-gate witness. -/
def dpW2 : DataProducerT := ⟨"dpB", "chat"⟩

/-- Replica-fanout witness environment: the middle attempt's handshake fails. -/
def envW3 : Nat → AttemptEnv := fun i =>
  if i = 1 then ⟨some "consC1", false, true⟩ else ⟨some ("consC" ++ toString i), true, true⟩

/-- Destination peer of the failed-handshake counterexample. -/
def destW4 : Peer :=
  ⟨"destD", { joined := true, rtpCapabilities := some "capsD",
              transports := [⟨"recvT", false, true⟩] }⟩

/-- Source peer of the failed-handshake counterexample. -/
def srcW4 : Peer := ⟨"srcD", { joined := true }⟩

/-- Producer of the failed-handshake counterexample. -/
def prodW4 : ProducerT := ⟨"prodD", .video, some "srcD"⟩

/-- Environment whose single attempt creates the Consumer but is then denied
the `newConsumer` acknowledgment. -/
def envW4 : Nat → AttemptEnv := fun _ => ⟨some "consD", false, true⟩

/-- A connected but not yet joined peer. -/
def peerW5 : Peer :=
  ⟨"peerE", { transports := [⟨"sendT", true, false⟩] }⟩

/-- Room holding only the not-yet-joined peer. -/
def roomW5 : RoomState :=
  { roomId := 0, closed := false, peers := [peerW5], broadcasters := [],
    consumerReplicas := 0, networkThrottled := false }

/-- An active room holding exactly one peer. -/
def roomW6 : RoomState :=
  { roomId := 3, closed := false, peers := [⟨"solo", { joined := true }⟩],
    broadcasters := [], consumerReplicas := 0, networkThrottled := false }

/-- Context currently holding `roomW6`. -/
def ctxW6 : ContextState := { room := some roomW6, nextRoomId := 4 }

/-- Sending peer of the bot message: display name stored, as everywhere in the
repository, under `peer.data.displayName`. -/
def aliceW7 : Peer := ⟨"alice", { joined := true, displayName := some "Alice" }⟩

/-- Server environment holding a throttle secret. -/
def envW8 : FacadeEnv := { envSecret := some "s3cret" }

/-- Server environment with `NETWORK_THROTTLE_SECRET` unset. -/
def envW9 : FacadeEnv := { envSecret := none }

/-- Already-joined peer listed in the join witness room. -/
def aliceW10 : Peer := ⟨"alice", { joined := true, displayName := some "Alice" }⟩

/-- Broadcaster listed in the join witness room. -/
def bcastW10 : Peer := ⟨"tv", { joined := false, displayName := some "TV" }⟩

/-- Joining peer of the join witness. -/
def bobW10 : Peer := ⟨"bob", {}⟩

/-- Join witness room: one joined peer, one broadcaster, and bob connected. -/
def roomW10 : RoomState :=
  { roomId := 7, closed := false, peers := [aliceW10, bobW10],
    broadcasters := [bcastW10], consumerReplicas := 0, networkThrottled := false }

/-- Helper: with the throttle secret unset on the server, the gate forbids
every caller-supplied secret. -/
theorem throttleForbidden_of_envSecret_none (secret : Option String) :
    throttleForbidden secret none = true := by
  cases secret with
  | none => rfl
  | some s => simp [throttleForbidden, jsFalsy, jsStrictEq]

/-- C2: when the destination declared no receive capabilities, or the Media
Engine Facade's `canConsume` rejects the (producer, capabilities) pair,
`_createConsumer` runs no attempt — no Consumer is created, no `newConsumer`
request is sent, and the call returns the silent `skippedCapabilities` outcome
rather than an error; likewise `_createDataConsumer` is a silent no-op when
the destination declared no SCTP capabilities. -/
theorem capability_gate_silent_noop
    (canConsume : String → RtpCapabilities → Bool) (k : Nat)
    (consumerPeer producerPeer : Peer) (producer : ProducerT)
    (env : Nat → AttemptEnv)
    (dest : Peer) (pid : Option String) (dp : DataProducerT) (denv : DataEnv) :
    ((consumerPeer.data.rtpCapabilities = none ∨
        ∀ caps, consumerPeer.data.rtpCapabilities = some caps →
          canConsume producer.id caps = false) →
      createConsumer canConsume k consumerPeer producerPeer producer env =
        { outcome := .skippedCapabilities, attempts := [] })
    ∧ (dest.data.sctpCapabilities = none →
        createDataConsumer dest pid dp denv =
          { outcome := .skippedNoSctp, trace := [], added := [] }) := by
  constructor
  · intro h
    cases hc : consumerPeer.data.rtpCapabilities with
    | none => simp [createConsumer, hc]
    | some caps =>
        rcases h with h | h
        · exact absurd hc (by simp [h])
        · simp [createConsumer, hc, h caps hc]
  · intro h
    simp [createDataConsumer, h]

/-- Witness for `capability_gate_silent_noop` at a concrete destination that
declared no capabilities at all. -/
theorem capability_gate_silent_noop_witness :
    createConsumer (fun _ _ => true) 0 destW2 srcW2 prodW2 envOkW1 =
      { outcome := .skippedCapabilities, attempts := [] }
    ∧ createDataConsumer destW2 (some "srcB") dpW2 ⟨some "dcB", true⟩ =
      { outcome := .skippedNoSctp, trace := [], added := [] } :=
  ⟨(capability_gate_silent_noop (fun _ _ => true) 0 destW2 srcW2 prodW2 envOkW1
      destW2 (some "srcB") dpW2 ⟨some "dcB", true⟩).1 (Or.inl rfl),
   (capability_gate_silent_noop (fun _ _ => true) 0 destW2 srcW2 prodW2 envOkW1
      destW2 (some "srcB") dpW2 ⟨some "dcB", true⟩).2 rfl⟩

/-- C5: a request of any of the five join-guarded methods issued by a peer
that has not joined is answered through the wrapper with a rejection whose
message names the missing precondition, and neither the Session nor any Peer
state is mutated (the room is returned unchanged, nothing is scheduled,
nothing is notified). -/
theorem not_joined_request_rejected (env : FacadeEnv) (room : RoomState)
    (peer : Peer) (req : ProtooRequest)
    (hjoined : peer.data.joined = false)
    (hreq : requiresJoin req = true) :
    handleProtooRequest env room peer req =
      { res := .thrown "Peer not yet joined", room := room,
        sched := [], notices := [] }
    ∧ protooAnswer (handleProtooRequest env room peer req).res =
        .rejected none "Peer not yet joined" := by
  cases req <;> simp_all [requiresJoin, handleProtooRequest, protooAnswer]

/-- Witness for `not_joined_request_rejected`: the not-yet-joined `peerW5`
sends `produce`. -/
theorem not_joined_request_rejected_witness :
    peerW5.data.joined = false
    ∧ handleProtooRequest {} roomW5 peerW5 (.produce "sendT" .audio) =
        { res := .thrown "Peer not yet joined", room := roomW5,
          sched := [], notices := [] } :=
  ⟨rfl, (not_joined_request_rejected {} roomW5 peerW5 (.produce "sendT" .audio)
      rfl rfl).1⟩

/-- C8: an `applyNetworkThrottle` or `resetNetworkThrottle` request whose
caller-supplied secret does not strictly equal the server-held secret is
answered with an explicit forbidden-status rejection (no thrown error), and
the room state — in particular the throttle flag — is unchanged. -/
theorem throttle_secret_mismatch_forbidden (env : FacadeEnv) (room : RoomState)
    (peer : Peer) (secret : Option String) (u d rt pl : Option Nat)
    (hne : jsStrictEq secret env.envSecret = false) :
    handleProtooRequest env room peer (.applyNetworkThrottle secret u d rt pl) =
      { res := .rejected forbiddenStatus "operation NOT allowed, modda fuckaa",
        room := room, sched := [], notices := [] }
    ∧ handleProtooRequest env room peer (.resetNetworkThrottle secret) =
      { res := .rejected forbiddenStatus "operation NOT allowed, modda fuckaa",
        room := room, sched := [], notices := [] } := by
  have hgate : throttleForbidden secret env.envSecret = true := by
    simp [throttleForbidden, hne]
  constructor <;> simp [handleProtooRequest, hgate]

/-- Witness for `throttle_secret_mismatch_forbidden`: wrong secret against a
configured server. -/
theorem throttle_secret_mismatch_forbidden_witness :
    jsStrictEq (some "wrong") envW8.envSecret = false
    ∧ handleProtooRequest envW8 roomW5 peerW5
        (.applyNetworkThrottle (some "wrong") none none none none) =
      { res := .rejected forbiddenStatus "operation NOT allowed, modda fuckaa",
        room := roomW5, sched := [], notices := [] } :=
  ⟨rfl, (throttle_secret_mismatch_forbidden envW8 roomW5 peerW5 (some "wrong")
      none none none none rfl).1⟩

/-- C9: with `NETWORK_THROTTLE_SECRET` unset on the server, every
`applyNetworkThrottle` and `resetNetworkThrottle` request is rejected with the
forbidden status regardless of the caller-supplied secret, leaving the room
unchanged — the diagnostic operations are unreachable. -/
theorem throttle_unreachable_when_unset (env : FacadeEnv) (room : RoomState)
    (peer : Peer) (hunset : env.envSecret = none) :
    ∀ (secret : Option String) (u d rt pl : Option Nat),
      handleProtooRequest env room peer (.applyNetworkThrottle secret u d rt pl) =
        { res := .rejected forbiddenStatus "operation NOT allowed, modda fuckaa",
          room := room, sched := [], notices := [] }
      ∧ handleProtooRequest env room peer (.resetNetworkThrottle secret) =
        { res := .rejected forbiddenStatus "operation NOT allowed, modda fuckaa",
          room := room, sched := [], notices := [] } := by
  intro secret u d rt pl
  have hgate : throttleForbidden secret env.envSecret = true := by
    rw [hunset]; exact throttleForbidden_of_envSecret_none secret
  constructor <;> simp [handleProtooRequest, hgate]

/-- Witness for `throttle_unreachable_when_unset`: a non-empty caller secret
against an unconfigured server. -/
theorem throttle_unreachable_when_unset_witness :
    envW9.envSecret = none
    ∧ handleProtooRequest envW9 roomW5 peerW5
        (.applyNetworkThrottle (some "anything") none none none none) =
      { res := .rejected forbiddenStatus "operation NOT allowed, modda fuckaa",
        room := roomW5, sched := [], notices := [] } :=
  ⟨rfl, (throttle_unreachable_when_unset envW9 roomW5 peerW5 rfl
      (some "anything") none none none none).1⟩

/-- C10: the `join` accept payload's peer list never contains an entry whose
id equals the joining peer's own id: although the peer is marked joined before
the joined peers and broadcasters are gathered, every gathered entry — peer or
broadcaster — is filtered by id before the accept. -/
theorem join_accept_excludes_self (env : FacadeEnv) (room : RoomState)
    (peer : Peer) (dn : String) (dev : Option String)
    (caps : Option RtpCapabilities) (scaps : Option SctpCapabilities)
    (infos : List PeerInfoT)
    (hres : (handleProtooRequest env room peer (.join dn dev caps scaps)).res =
      .accepted (.peers infos)) :
    ∀ info ∈ infos, info.id ≠ peer.id := by
  by_cases hj : peer.data.joined
  · simp [handleProtooRequest, hj] at hres
  · simp only [handleProtooRequest, hj, Bool.false_eq_true, if_false,
      HandlerResult.accepted.injEq, Payload.peers.injEq] at hres
    subst hres
    intro info hinfo
    simp only [List.mem_map, List.mem_filter] at hinfo
    obtain ⟨jp, ⟨_, hne⟩, rfl⟩ := hinfo
    simpa using hne

/-- Witness for `join_accept_excludes_self`: bob joins a room already holding
a joined peer and a broadcaster. -/
theorem join_accept_excludes_self_witness :
    (handleProtooRequest {} roomW10 bobW10 (.join "Bob" none (some "caps") none)).res =
      .accepted (.peers [⟨"alice", some "Alice", none⟩, ⟨"tv", some "TV", none⟩])
    ∧ ∀ info ∈ [PeerInfoT.mk "alice" (some "Alice") none,
                PeerInfoT.mk "tv" (some "TV") none], info.id ≠ bobW10.id :=
  ⟨by decide,
   join_accept_excludes_self {} roomW10 bobW10 "Bob" none (some "caps") none _
     (by decide)⟩

/-- C6: acquiring the Session is idempotent while one is active (same Room,
no creation); the last peer's disconnect closes the Room and the registered
close callback clears the held reference, a second close event being a no-op;
a subsequent acquisition creates a brand-new Room with a fresh id and empty
peer and broadcaster directories. -/
theorem session_registry_lifecycle (ctx : ContextState) (r : RoomState)
    (p : Peer) (k : Nat) :
    (ctx.room = some r → Context.getRoom ctx k = (ctx, r))
    ∧ (r.closed = false → r.peers = [p] →
        Room.handlePeerClose ctx r p.id =
          ({ ctx with room := none }, { r with peers := [], closed := true }))
    ∧ (r.closed = true → Room.handlePeerClose ctx r p.id = (ctx, r))
    ∧ (ctx.room = none →
        (Context.getRoom ctx k).2 =
          { roomId := ctx.nextRoomId, closed := false, peers := [],
            broadcasters := [], consumerReplicas := k, networkThrottled := false }
        ∧ (Context.getRoom ctx k).1.room = some (Context.getRoom ctx k).2
        ∧ (r.roomId < ctx.nextRoomId →
            (Context.getRoom ctx k).2.roomId ≠ r.roomId)) := by
  refine ⟨?_, ?_, ?_, ?_⟩
  · intro h; simp [Context.getRoom, h]
  · intro hcl hpeers
    simp [Room.handlePeerClose, hcl, hpeers, Context.onRoomClose, RoomState.close]
  · intro hcl; simp [Room.handlePeerClose, hcl]
  · intro h
    refine ⟨by simp [Context.getRoom, h], by simp [Context.getRoom, h], ?_⟩
    intro hlt
    simp only [Context.getRoom, h]
    omega

/-- Witness for `session_registry_lifecycle` at a context holding a one-peer
room. -/
theorem session_registry_lifecycle_witness :
    (ctxW6.room = some roomW6 ∧ Context.getRoom ctxW6 0 = (ctxW6, roomW6))
    ∧ (Room.handlePeerClose ctxW6 roomW6 "solo" =
        ({ ctxW6 with room := none }, { roomW6 with peers := [], closed := true }))
    ∧ (Context.getRoom { room := none, nextRoomId := 4 } 0).2 =
        { roomId := 4, closed := false, peers := [], broadcasters := [],
          consumerReplicas := 0, networkThrottled := false } :=
  ⟨⟨rfl, (session_registry_lifecycle ctxW6 roomW6 ⟨"solo", { joined := true }⟩ 0).1 rfl⟩,
   (session_registry_lifecycle ctxW6 roomW6 ⟨"solo", { joined := true }⟩ 0).2.1 rfl rfl,
   ((session_registry_lifecycle { room := none, nextRoomId := 4 } roomW6
       ⟨"solo", { joined := true }⟩ 0).2.2.2 rfl).1⟩

/-- C7 (code bug): on a text message from Alice's `bot`-labeled channel the
handler evaluates `peer.appData.displayName`, but the object it was given is
the protoo Peer, whose display name lives at `peer.data.displayName` and which
has no `appData` property — so the handler throws a TypeError and sends
nothing, while the spec'd reply for this input is `Alice said me: "hi"`. -/
theorem bot_reply_reads_missing_appData :
    botOnMessage aliceW7 51 "hi" =
      .error "TypeError: cannot read displayName of undefined"
    ∧ specBotReply aliceW7 "hi" = "Alice said me: \"hi\""
    ∧ aliceW7.data.displayName = some "Alice" :=
  ⟨rfl, rfl, rfl⟩

/-- Helper: an event that does not occur in a trace is vacuously preceded by
anything. -/
theorem precedesIn_of_not_mem (x y : Event) (tr : List Event) (h : y ∉ tr) :
    precedesIn x y tr := by
  intro j hj
  exact absurd (List.get?_mem hj) h

/-- Helper: in the successful-attempt trace the acknowledgment strictly
precedes the resume. -/
theorem precedesIn_success_trace (tid dest pp pid c cid : String) :
    precedesIn (.ackReceived cid) (.consumerResumed cid)
      [.consumerCreated tid c true, .newConsumerRequest dest pp pid c,
       .ackReceived c, .consumerResumed c, .scoreNotify c] := by
  intro j hj
  match j with
  | 0 => simp at hj
  | 1 => simp at hj
  | 2 => simp at hj
  | 3 =>
      have hc : c = cid := by simpa using hj
      exact ⟨2, by omega, by simp [hc]⟩
  | 4 => simp at hj
  | n + 5 => simp at hj

/-- C1: whenever the negotiation protocol runs its attempts, every Consumer is
created on the destination's consuming transport with `paused: true`, and in
every attempt's trace a resume of a Consumer occurs only strictly after the
acknowledgment of the `newConsumer` request for that Consumer — never before. -/
theorem consumer_paused_until_ack
    (canConsume : String → RtpCapabilities → Bool) (k : Nat)
    (dest pp : Peer) (producer : ProducerT) (env : Nat → AttemptEnv)
    (caps : RtpCapabilities) (t : TransportT)
    (hcaps : dest.data.rtpCapabilities = some caps)
    (hcan : canConsume producer.id caps = true)
    (ht : findConsumingTransport dest.data.transports = some t) :
    ∀ a ∈ (createConsumer canConsume k dest pp producer env).attempts,
      (∀ tid cid b, Event.consumerCreated tid cid b ∈ a.trace →
        tid = t.id ∧ b = true)
      ∧ (∀ cid, precedesIn (.ackReceived cid) (.consumerResumed cid) a.trace) := by
  intro a ha
  simp only [createConsumer, hcaps, hcan, ht, Bool.not_true, Bool.false_eq_true,
    if_false, List.mem_map] at ha
  obtain ⟨i, _, rfl⟩ := ha
  rcases henvc : (env i).consumeResult with _ | c
  · constructor
    · intro tid cid b hmem
      simp [runConsumerAttempt, henvc] at hmem
    · intro cid
      exact precedesIn_of_not_mem _ _ _ (by simp [runConsumerAttempt, henvc])
  · rcases hack : (env i).ackOk with _ | _
    · constructor
      · intro tid cid b hmem
        simp only [runConsumerAttempt, henvc, hack, Bool.false_eq_true, if_false,
          List.mem_cons, List.not_mem_nil, or_false] at hmem
        rcases hmem with h | h | h <;> simp_all
      · intro cid
        exact precedesIn_of_not_mem _ _ _ (by simp [runConsumerAttempt, henvc, hack])
    · rcases hres : (env i).resumeOk with _ | _
      · constructor
        · intro tid cid b hmem
          simp only [runConsumerAttempt, henvc, hack, hres, Bool.false_eq_true,
            if_true, if_false, List.mem_cons, List.not_mem_nil, or_false] at hmem
          rcases hmem with h | h | h | h <;> simp_all
        · intro cid
          exact precedesIn_of_not_mem _ _ _
            (by simp [runConsumerAttempt, henvc, hack, hres])
      · constructor
        · intro tid cid b hmem
          simp only [runConsumerAttempt, henvc, hack, hres, if_true,
            List.mem_cons, List.not_mem_nil, or_false] at hmem
          rcases hmem with h | h | h | h | h <;> simp_all
        · intro cid
          simp only [runConsumerAttempt, henvc, hack, hres, if_true]
          exact precedesIn_success_trace t.id dest.id pp.id producer.id c cid

/-- Witness for `consumer_paused_until_ack`: a fully successful single-attempt
run toward `destW1`. -/
theorem consumer_paused_until_ack_witness :
    destW1.data.rtpCapabilities = some "capsA"
    ∧ findConsumingTransport destW1.data.transports = some ⟨"recvT", false, true⟩
    ∧ ∀ a ∈ (createConsumer (fun _ _ => true) 0 destW1 srcW1 prodW1 envOkW1).attempts,
        (∀ tid cid b, Event.consumerCreated tid cid b ∈ a.trace →
          tid = "recvT" ∧ b = true)
        ∧ (∀ cid, precedesIn (.ackReceived cid) (.consumerResumed cid) a.trace) :=
  ⟨rfl, rfl,
   consumer_paused_until_ack (fun _ _ => true) 0 destW1 srcW1 prodW1 envOkW1
     "capsA" ⟨"recvT", false, true⟩ rfl rfl rfl⟩

/-- Helper: under passing gates `_createConsumer` runs the replica loop. -/
theorem createConsumer_ran
    (canConsume : String → RtpCapabilities → Bool) (k : Nat)
    (dest pp : Peer) (producer : ProducerT) (env : Nat → AttemptEnv)
    (caps : RtpCapabilities) (t : TransportT)
    (hcaps : dest.data.rtpCapabilities = some caps)
    (hcan : canConsume producer.id caps = true)
    (ht : findConsumingTransport dest.data.transports = some t) :
    createConsumer canConsume k dest pp producer env =
      { outcome := .ran,
        attempts := (List.range (1 + k)).map fun i =>
          runConsumerAttempt t.id dest.id pp.id producer.id (env i) } := by
  simp [createConsumer, hcaps, hcan, ht]

/-- C3: with `consumerReplicas = k`, a negotiation-protocol run whose gates
pass performs exactly `1 + k` attempts for the one (producer, destination)
pair; attempt `i` is a function of its own environment alone (so no attempt's
failure blocks another), and every consumer an attempt inserts stays inserted
in the final map regardless of the other attempts' outcomes. -/
theorem replica_fanout_independent
    (canConsume : String → RtpCapabilities → Bool) (k : Nat)
    (dest pp : Peer) (producer : ProducerT) (env : Nat → AttemptEnv)
    (caps : RtpCapabilities) (t : TransportT)
    (hcaps : dest.data.rtpCapabilities = some caps)
    (hcan : canConsume producer.id caps = true)
    (ht : findConsumingTransport dest.data.transports = some t) :
    (createConsumer canConsume k dest pp producer env).outcome = .ran
    ∧ (createConsumer canConsume k dest pp producer env).attempts.length = 1 + k
    ∧ (∀ i : Nat, i < 1 + k →
        (createConsumer canConsume k dest pp producer env).attempts.get? i =
          some (runConsumerAttempt t.id dest.id pp.id producer.id (env i)))
    ∧ (∀ i : Nat, i < 1 + k →
        ∀ c ∈ (runConsumerAttempt t.id dest.id pp.id producer.id (env i)).added,
          c ∈ addedConsumers (createConsumer canConsume k dest pp producer env)) := by
  have hres := createConsumer_ran canConsume k dest pp producer env caps t hcaps hcan ht
  refine ⟨by rw [hres], by rw [hres]; simp, ?_, ?_⟩
  · intro i hi
    rw [hres, List.get?_eq_getElem?]
    simp [List.getElem?_map, List.getElem?_range hi]
  · intro i hi c hc
    rw [hres]
    simp only [addedConsumers, List.map_map]
    refine List.mem_flatten.mpr
      ⟨(runConsumerAttempt t.id dest.id pp.id producer.id (env i)).added, ?_, hc⟩
    exact List.mem_map.mpr ⟨i, List.mem_range.mpr hi, rfl⟩

/-- Witness for `replica_fanout_independent`: `k = 2` with the middle
attempt's handshake denied. -/
theorem replica_fanout_independent_witness :
    destW1.data.rtpCapabilities = some "capsA"
    ∧ (createConsumer (fun _ _ => true) 2 destW1 srcW1 prodW1 envW3).attempts.length = 1 + 2
    ∧ "consC0" ∈ addedConsumers (createConsumer (fun _ _ => true) 2 destW1 srcW1 prodW1 envW3) :=
  ⟨rfl,
   (replica_fanout_independent (fun _ _ => true) 2 destW1 srcW1 prodW1 envW3
     "capsA" ⟨"recvT", false, true⟩ rfl rfl rfl).2.1,
   (replica_fanout_independent (fun _ _ => true) 2 destW1 srcW1 prodW1 envW3
     "capsA" ⟨"recvT", false, true⟩ rfl rfl rfl).2.2.2 0 (by omega) "consC0" (by decide)⟩

/-- C4 counterexample: one attempt whose `newConsumer` handshake is denied
still leaves its Consumer inserted in the destination peer's consumer map —
the failure is logged but the attempt's side effects are not absent, refuting
the claim as stated. -/
theorem failed_handshake_keeps_consumer_counterexample :
    (createConsumer (fun _ _ => true) 0 destW4 srcW4 prodW4 envW4).attempts =
      [{ trace := [.consumerCreated "recvT" "consD" true,
                   .newConsumerRequest "destD" "srcD" "prodD" "consD",
                   .logError "_createConsumer() | failed"],
         added := ["consD"] }]
    ∧ "consD" ∈ addedConsumers
        (createConsumer (fun _ _ => true) 0 destW4 srcW4 prodW4 envW4) := by
  constructor <;> decide

/-- C4 (amended): a failed attempt is logged and leaves the other attempts
unaffected; its side effects are absent when `transport.consume` itself failed,
but when the failure is later — in the `newConsumer` request or the resume —
the created, never-resumed Consumer stays in the destination's consumer map
(only the separately registered close handlers remove it). -/
theorem failed_attempt_logged_and_isolated
    (canConsume : String → RtpCapabilities → Bool) (k : Nat)
    (dest pp : Peer) (producer : ProducerT) (env : Nat → AttemptEnv)
    (caps : RtpCapabilities) (t : TransportT)
    (hcaps : dest.data.rtpCapabilities = some caps)
    (hcan : canConsume producer.id caps = true)
    (ht : findConsumingTransport dest.data.transports = some t) :
    ∀ i : Nat, i < 1 + k →
      ((env i).consumeResult = none →
        (createConsumer canConsume k dest pp producer env).attempts.get? i =
          some { trace := [.logWarn "_createConsumer() | transport.consume()"],
                 added := [] })
      ∧ (∀ c, (env i).consumeResult = some c →
          ((env i).ackOk = false ∨ (env i).resumeOk = false) →
          ∃ a, (createConsumer canConsume k dest pp producer env).attempts.get? i = some a
            ∧ a.added = [c]
            ∧ Event.logError "_createConsumer() | failed" ∈ a.trace
            ∧ Event.consumerResumed c ∉ a.trace)
      ∧ ((createConsumer canConsume k dest pp producer env).attempts.get? i =
          some (runConsumerAttempt t.id dest.id pp.id producer.id (env i))) := by
  have hres := createConsumer_ran canConsume k dest pp producer env caps t hcaps hcan ht
  intro i hi
  have hget : (createConsumer canConsume k dest pp producer env).attempts.get? i =
      some (runConsumerAttempt t.id dest.id pp.id producer.id (env i)) := by
    rw [hres, List.get?_eq_getElem?]
    simp [List.getElem?_map, List.getElem?_range hi]
  refine ⟨?_, ?_, hget⟩
  · intro hc
    rw [hget]
    simp [runConsumerAttempt, hc]
  · intro c hc hfail
    refine ⟨runConsumerAttempt t.id dest.id pp.id producer.id (env i), hget, ?_⟩
    rcases hack : (env i).ackOk with _ | _
    · simp [runConsumerAttempt, hc, hack]
    · rcases hres2 : (env i).resumeOk with _ | _
      · simp [runConsumerAttempt, hc, hack, hres2]
      · rcases hfail with h | h
        · exact absurd hack (by simp [h])
        · exact absurd hres2 (by simp [h])

/-- Witness for `failed_attempt_logged_and_isolated`: the denied-handshake
attempt of the counterexample input. -/
theorem failed_attempt_logged_and_isolated_witness :
    destW4.data.rtpCapabilities = some "capsD"
    ∧ ∃ a, (createConsumer (fun _ _ => true) 0 destW4 srcW4 prodW4 envW4).attempts.get? 0 =
          some a
        ∧ a.added = ["consD"]
        ∧ Event.logError "_createConsumer() | failed" ∈ a.trace
        ∧ Event.consumerResumed "consD" ∉ a.trace :=
  ⟨rfl,
   (failed_attempt_logged_and_isolated (fun _ _ => true) 0 destW4 srcW4 prodW4 envW4
       "capsD" ⟨"recvT", false, true⟩ rfl rfl rfl 0 (by omega)).2.1
     "consD" rfl (Or.inl rfl)⟩
